import Mathlib

/-!
Verification development for the conversational stage/state orchestration
engine (`generic_state_machine.py` and `decision_rule_engine.py`).

The Python code is shallowly embedded: every class becomes a Lean structure
or inductive, every method a Lean function translated clause by clause from
the source.  Python `int` values are modelled as `Int`, Python strings as
`String`, dictionaries as association lists, and Python truthiness is made
explicit at each `.get`/`if` site that relies on it.  Mutation of the shared
guard-rail `context` dict is modelled by threading an explicit
`RuleContext` value.
-/

namespace StateMachine

/-- A transition's `source` field in the configuration: the wildcard string
`"*"`, a single state name, or a list of state names
(`generic_state_machine.py`, use sites at lines 319 and 648-651). -/
inductive TransSource where
  | star : TransSource
  | single : String → TransSource
  | many : List String → TransSource
  deriving Repr, DecidableEq

/-- One entry of the configuration's flat `transitions` list:
`{trigger, source, dest}`. -/
structure Transition where
  trigger : String
  source : TransSource
  dest : String
  deriving Repr, DecidableEq

/-- Python's `str.startswith`, computed structurally over the underlying
character list (behaviourally identical to `String.startsWith`, whose
byte-position loop does not reduce definitionally). -/
def pyStartswith (s pre : String) : Bool :=
  pre.data.isPrefixOf s.data

/-- `source == '*' or source == self.state or (isinstance(source, list) and
self.state in source)` (line 319).  The wildcard is the literal string
`"*"`, represented by `TransSource.star`. -/
def sourceMatches (source : TransSource) (state : String) : Bool :=
  match source with
  | .star => true
  | .single s => s == state
  | .many ss => state ∈ ss

/-- The mutable `context` dict shared by the guard rails.  Only three keys
are ever read or written by the rules: `stage_start_turn` and
`current_stage` (installed by `is_transition_allowed`, lines 297-298, with
`.get` defaults `0` and `'onboarding'` at lines 64-66), and
`derailing_start_turn` (written by `GoldenPathRule.check`, line 149). -/
structure RuleContext where
  stage_start_turn : Int
  current_stage : String
  derailing_start_turn : Option Int
  deriving Repr, DecidableEq

/-- The fresh dict created by `context = context or {}`: the first two
fields carry the `.get` defaults of lines 64 and 66. -/
def RuleContext.default : RuleContext :=
  { stage_start_turn := 0, current_stage := "onboarding", derailing_start_turn := none }

/-- Python truthiness of an optional integer (`if self.max_turns_in_stage:`
etc.): `None` and `0` are falsy. -/
def truthyInt (x : Option Int) : Bool :=
  match x with
  | none => false
  | some n => n != 0

/-- `SequenceRule.check` (lines 28-44).  Python's `list.index` raises
`ValueError` when the element is absent and the whole body is wrapped in
`try/except ValueError: return True`; `List.indexOf?` models this with
`none`. -/
def sequenceCheck (sequence : List String) (allow_skip allow_backward : Bool)
    (current_state dest_state : String) : Bool :=
  match sequence.indexOf? current_state, sequence.indexOf? dest_state with
  | some current_idx, some dest_idx =>
    if dest_idx < current_idx && !allow_backward then false
    else if dest_idx > current_idx + 1 && !allow_skip then false
    else true
  | _, _ => true

/-- `TurnLimitRule.check` (lines 62-96), translated clause by clause.  The
guards `if self.stage_relative and self.max_turns_in_stage`,
`if self.min_turns and ...` and `if self.max_turns and ...` test Python
truthiness of the optional integers. -/
def turnLimitCheck (min_turns max_turns : Option Int) (closure_states : List String)
    (force_closure stage_relative : Bool) (max_turns_in_stage : Option Int)
    (_current_state dest_state : String) (turn_counter : Int) (context : RuleContext) : Bool :=
  let stage_start_turn := context.stage_start_turn
  let turns_in_stage := turn_counter - stage_start_turn
  let current_stage := context.current_stage
  if stage_relative && truthyInt max_turns_in_stage then
    if turns_in_stage > max_turns_in_stage.getD 0 && dest_state ∈ closure_states then
      false
    else
      true
  else
    if truthyInt min_turns && turn_counter < min_turns.getD 0
        && dest_state ∈ closure_states then
      false
    else if turn_counter ≥ 12 && !closure_states.isEmpty && current_stage == "onboarding" then
      if dest_state ∈ closure_states then true
      else if dest_state ∈ ["stage_selection", "content_intro_pt", "content_intro_ps"] then true
      else false
    else if truthyInt max_turns && turn_counter ≥ max_turns.getD 0 && force_closure
        && !(dest_state ∈ closure_states) then
      false
    else
      true

/-- `GoldenPathRule.check` (lines 139-165).  The rule writes
`context['derailing_start_turn']` in place (line 149); the embedding
returns the updated context alongside the boolean. -/
def goldenPathCheck (golden_path derailing_states : List String)
    (max_derailing_time : Int) (force_return : Bool)
    (current_state dest_state : String) (turn_counter : Int)
    (context : RuleContext) : Bool × RuleContext :=
  if dest_state == "onboarding_closure" && turn_counter ≥ 10 then
    (true, context)
  else if current_state ∈ golden_path && dest_state ∈ derailing_states then
    (true, { context with derailing_start_turn := some turn_counter })
  else if current_state ∈ derailing_states && force_return then
    let derailing_start := context.derailing_start_turn.getD turn_counter
    let derailing_duration := turn_counter - derailing_start
    if derailing_duration ≥ max_derailing_time then
      if !(dest_state ∈ golden_path) && dest_state != "onboarding_closure" then
        (false, context)
      else
        (true, context)
    else
      (true, context)
  else
    (true, context)

/-- `AbsoluteClosureRule.check` (lines 177-184): both branches return
`True` — the rule can never veto anything. -/
def absoluteClosureCheck (closure_state : String) (min_turn_for_closure : Int)
    (_current_state dest_state : String) (turn_counter : Int) : Bool :=
  if dest_state == closure_state && turn_counter ≥ min_turn_for_closure then
    true
  else
    true

/-- The guard-rail rules that can appear in `GenericStateMachine.guard_rails`
(`_setup_guard_rails` appends only these three rule classes plus
`GoldenPathRule`; `ProgressionRule` is stored separately, line 263). -/
inductive GuardRail where
  | sequenceRule (sequence : List String) (allow_skip allow_backward : Bool)
  | turnLimitRule (min_turns max_turns : Option Int) (closure_states : List String)
      (force_closure stage_relative : Bool) (max_turns_in_stage : Option Int)
  | absoluteClosureRule (closure_state : String) (min_turn_for_closure : Int)
  | goldenPathRule (golden_path derailing_states : List String)
      (max_derailing_time : Int) (force_return : Bool)
  deriving Repr, DecidableEq

/-- Dispatch of `rule.check(...)` over the concrete rule classes, threading
the shared context (only `GoldenPathRule` writes to it). -/
def GuardRail.check (rule : GuardRail) (current_state dest_state : String)
    (turn_counter : Int) (context : RuleContext) : Bool × RuleContext :=
  match rule with
  | .sequenceRule seq skip backward =>
    (sequenceCheck seq skip backward current_state dest_state, context)
  | .turnLimitRule mn mx cs fc sr mts =>
    (turnLimitCheck mn mx cs fc sr mts current_state dest_state turn_counter context, context)
  | .absoluteClosureRule c m =>
    (absoluteClosureCheck c m current_state dest_state turn_counter, context)
  | .goldenPathRule gp ds mdt fr =>
    goldenPathCheck gp ds mdt fr current_state dest_state turn_counter context

/-- Python's f-string rendering of an `Optional[int]`: `None` or the
number. -/
def pyShowOptInt (x : Option Int) : String :=
  match x with
  | none => "None"
  | some n => toString n

/-- `rule.get_reason()` for each rule class. -/
def GuardRail.reason (rule : GuardRail) : String :=
  match rule with
  | .sequenceRule seq _ _ =>
    "Sequence rule violation: must follow " ++ String.intercalate " -> " seq
  | .turnLimitRule mn mx _ _ _ _ =>
    "Turn limit rule: min " ++ pyShowOptInt mn ++ ", max " ++ pyShowOptInt mx ++ " turns"
  | .absoluteClosureRule _ m =>
    "Absolute closure rule: closure always allowed after turn " ++ toString m
  | .goldenPathRule _ _ mdt _ =>
    "Golden path rule: max " ++ toString mdt ++ " turns derailing allowed"

/-- The `guard_rails` sub-dict of a stage configuration.  Every field is
optional; the `.get` defaults of `_setup_guard_rails` (lines 240-241, 253,
277-278) are applied at the use sites. -/
structure GuardRailsConfig where
  allow_sequence_skip : Option Bool := none
  allow_backward : Option Bool := none
  force_closure_after_max_turns : Option Bool := none
  max_derailing_time : Option Int := none
  force_golden_path_return : Option Bool := none
  deriving Repr, DecidableEq

/-- One stage's configuration dict.  `none` models an absent key (the code
distinguishes key presence, e.g. `'min_turns' in stage_config`, line 245). -/
structure StageConfig where
  states : List String := []
  mandatory_sequence : Option (List String) := none
  guard_rails : GuardRailsConfig := {}
  min_turns : Option Int := none
  max_turns : Option Int := none
  relative_turns : Option Bool := none
  max_turns_in_stage : Option Int := none
  target_turns : Option Int := none
  closure_states : Option (List String) := none
  golden_path : Option (List String) := none
  derailing_states : Option (List String) := none
  deriving Repr, DecidableEq

/-- `self.stages.get(stage, {})`: a missing stage behaves as an empty dict,
i.e. a `StageConfig` whose every key is absent. -/
def emptyStageConfig : StageConfig := {}

/-- `GenericStateMachine._setup_guard_rails` (lines 229-285): builds the
`guard_rails` list in source order — `SequenceRule`, then `TurnLimitRule`,
then `AbsoluteClosureRule`, then `GoldenPathRule`.  (The comment at line 265
calls `AbsoluteClosureRule` "HIGHEST PRIORITY - add first", but it is in
fact appended third.)  `ProgressionRule` is stored in a separate attribute
(line 263), never in this list. -/
def setupGuardRails (sc : StageConfig) : List GuardRail :=
  (match sc.mandatory_sequence with
   | some sequence =>
     [GuardRail.sequenceRule sequence
       (sc.guard_rails.allow_sequence_skip.getD false)
       (sc.guard_rails.allow_backward.getD false)]
   | none => [])
  ++ (if sc.min_turns.isSome || sc.max_turns.isSome
        || (sc.relative_turns.getD false) then
      [GuardRail.turnLimitRule sc.min_turns sc.max_turns
        (sc.closure_states.getD ["onboarding_closure"])
        (sc.guard_rails.force_closure_after_max_turns.getD false)
        (sc.relative_turns.getD false)
        sc.max_turns_in_stage]
     else [])
  ++ (let closure_states := sc.closure_states.getD ["onboarding_closure"]
      if !closure_states.isEmpty then
        [GuardRail.absoluteClosureRule (closure_states.headD "") 10]
      else [])
  ++ (match sc.golden_path, sc.derailing_states with
      | some golden_path, some derailing_states =>
        [GuardRail.goldenPathRule golden_path derailing_states
          (sc.guard_rails.max_derailing_time.getD 3)
          (sc.guard_rails.force_golden_path_return.getD true)]
      | _, _ => [])

/-- The full configuration document consumed by `GenericStateMachine`.
Top-level `.get` defaults (`current_stage='default'`, `initial_state='init'`,
empty dicts/lists) are assumed to be already resolved in these fields.
`inter_stage_selection` is `config['inter_stage_transitions']['stage_selection']`,
the trigger → target-stage map read at lines 329-332. -/
structure Config where
  stages : List (String × StageConfig) := []
  current_stage : String := "default"
  initial_state : String := "init"
  transitions : List Transition := []
  trigger_descriptions : List (String × String) := []
  inter_stage_selection : List (String × String) := []
  deriving Repr, DecidableEq

/-- The observable fields of a `GenericStateMachine` instance.
`machine_states` and `machine_transitions` are the state set and transition
table of the underlying third-party `transitions.Machine` object (rebuilt on
every stage switch); the memoisation fields `_transition_cache` and
`_last_cache_turn` are omitted — they only short-circuit recomputation of
`get_available_transitions` and never change a returned value for a fixed
`(state, turn, stage)` key. -/
structure Machine where
  stages : List (String × StageConfig)
  current_stage : String
  initial_state : String
  transitions_config : List Transition
  trigger_descriptions : List (String × String)
  inter_stage_selection : List (String × String)
  state : String
  stage_start_turn : Int
  completed_stages : List String
  states : List String
  guard_rails : List GuardRail
  machine_states : List String
  machine_transitions : List Transition
  deriving Repr, DecidableEq

/-- `GenericStateMachine.__init__` (lines 192-223): the initial machine is
built from the `current_stage` entry of `stages` (missing stage → empty
dict), with the full `transitions` list handed to the underlying
`transitions.Machine`. -/
def initMachine (cfg : Config) : Machine :=
  let current_stage_config := (cfg.stages.lookup cfg.current_stage).getD emptyStageConfig
  { stages := cfg.stages
    current_stage := cfg.current_stage
    initial_state := cfg.initial_state
    transitions_config := cfg.transitions
    trigger_descriptions := cfg.trigger_descriptions
    inter_stage_selection := cfg.inter_stage_selection
    state := cfg.initial_state
    stage_start_turn := 0
    completed_stages := []
    states := current_stage_config.states
    guard_rails := setupGuardRails current_stage_config
    machine_states := current_stage_config.states
    machine_transitions := cfg.transitions }

/-- The loop of `is_transition_allowed` (lines 301-305): the first rule
whose `check` returns `False` short-circuits with `(False, reason)`;
the context updated in place by earlier rules is threaded through. -/
def guardRailLoop (current_state dest_state : String) (turn_counter : Int) :
    List GuardRail → RuleContext → Bool × String × RuleContext
  | [], context => (true, "Transition allowed", context)
  | rule :: rest, context =>
    let (ok, context') := rule.check current_state dest_state turn_counter context
    if ok then guardRailLoop current_state dest_state turn_counter rest context'
    else (false, rule.reason, context')

/-- `GenericStateMachine.is_transition_allowed` (lines 291-305): installs
`stage_start_turn` and `current_stage` into the shared context, then runs
the guard rails in order. -/
def is_transition_allowed (m : Machine) (dest_state : String) (turn_counter : Int)
    (context : RuleContext) : Bool × String × RuleContext :=
  let context := { context with
    stage_start_turn := m.stage_start_turn
    current_stage := m.current_stage }
  guardRailLoop m.state dest_state turn_counter m.guard_rails context

/-- One element of the list returned by `get_available_transitions`
(lines 346-353). -/
structure TransEntry where
  trigger : String
  source : TransSource
  dest : String
  description : String
  allowed : Bool
  block_reason : Option String
  deriving Repr, DecidableEq

/-- `get_trigger_description` (lines 361-364). -/
def get_trigger_description (m : Machine) (trigger : String) : String :=
  (m.trigger_descriptions.lookup trigger).getD ("Trigger: " ++ trigger)

/-- The body of the `for transition in self.transitions_config` loop of
`get_available_transitions` (lines 317-353), threading the shared context
dict across iterations.  The completed-stage block (lines 327-336) applies
only while `current_stage == 'stage_selection'` and only to triggers whose
`inter_stage_transitions['stage_selection']` target starts with
`'content_'` and is already in `completed_stages`. -/
def availableLoop (m : Machine) (turn_counter : Int) :
    List Transition → RuleContext → List TransEntry
  | [], _ => []
  | t :: rest, context =>
    if sourceMatches t.source m.state then
      let stage_block : Option String :=
        if m.current_stage == "stage_selection" then
          match m.inter_stage_selection.lookup t.trigger with
          | some target_stage =>
            if pyStartswith target_stage "content_"
                && target_stage ∈ m.completed_stages then
              some ("Stage " ++ target_stage ++ " already completed in this session")
            else none
          | none => none
        else none
      let (allowed0, reason0, context') := is_transition_allowed m t.dest turn_counter context
      let (allowed, reason) :=
        match stage_block with
        | some r => (false, r)
        | none => (allowed0, reason0)
      { trigger := t.trigger
        source := t.source
        dest := t.dest
        description := get_trigger_description m t.trigger
        allowed := allowed
        block_reason := if allowed then none else some reason } ::
        availableLoop m turn_counter rest context'
    else
      availableLoop m turn_counter rest context

/-- `get_available_transitions` (lines 307-359), without the pure
memoisation cache. -/
def get_available_transitions (m : Machine) (turn_counter : Int)
    (context : RuleContext) : List TransEntry :=
  availableLoop m turn_counter m.transitions_config context

/-- `mark_stage_completed` (lines 609-613): appends only names starting
with `'content_'` that are not already present. -/
def mark_stage_completed (m : Machine) (stage_name : String) : Machine :=
  if !(stage_name ∈ m.completed_stages) && pyStartswith stage_name "content_" then
    { m with completed_stages := m.completed_stages ++ [stage_name] }
  else
    m

/-- `_transition_belongs_to_stage` (lines 637-658).  A wildcard source is
the literal string `"*"`, which is compared for membership in the stage's
state list like any other string. -/
def transition_belongs_to_stage (m : Machine) (t : Transition) (stage : String) : Bool :=
  let stage_states := ((m.stages.lookup stage).getD emptyStageConfig).states
  match t.source with
  | .single s => s ∈ stage_states && t.dest ∈ stage_states
  | .many ss => ss.any (· ∈ stage_states) && t.dest ∈ stage_states
  | .star => "*" ∈ stage_states && t.dest ∈ stage_states

/-- `switch_stage` (lines 543-607): rejects a target stage absent from the
configuration before any mutation; otherwise sets the new stage, resets
`stage_start_turn`, installs the new stage's states (initial state = first
listed state, falling back to the configured `initial_state`), rebuilds the
underlying machine from the transitions filtered by
`_transition_belongs_to_stage`, and rebuilds the guard rails. -/
def switch_stage (m : Machine) (new_stage : String) (current_turn : Int) : Bool × Machine :=
  match m.stages.lookup new_stage with
  | none => (false, m)
  | some new_stage_config =>
    let new_states := new_stage_config.states
    let new_stage_transitions :=
      m.transitions_config.filter (fun t => transition_belongs_to_stage m t new_stage)
    let initial_state := new_states.headD m.initial_state
    (true,
      { m with
        current_stage := new_stage
        stage_start_turn := current_turn
        states := new_states
        machine_states := new_states
        machine_transitions := new_stage_transitions
        state := initial_state
        guard_rails := setupGuardRails new_stage_config })

/-- `_execute_inter_stage_transition` (lines 456-515).  Note that
`mark_stage_completed` runs *before* the stage switch is attempted
(lines 470-471), so `completed_stages` can grow even when the switch then
fails.  `machine.set_state(target_state)` raises for a state unknown to the
new machine (only reachable when the new stage's state list is empty); the
`except` handler turns that into a `False` return. -/
def execute_inter_stage_transition (m : Machine) (target_stage : String)
    (turn_counter : Int) (target_state? : Option String) :
    Bool × Machine :=
  let old_stage := m.current_stage
  let target_state := target_state?.getD "stage_selection"
  let m1 :=
    if pyStartswith old_stage "content_" && target_stage != old_stage then
      mark_stage_completed m old_stage
    else m
  match switch_stage m1 target_stage turn_counter with
  | (false, m2) => (false, m2)
  | (true, m2) =>
    let target_state' :=
      if !(target_state ∈ m2.states) then m2.states.headD "unknown"
      else target_state
    if target_state' == m2.state then (true, m2)
    else if target_state' ∈ m2.states then (true, { m2 with state := target_state' })
    else (false, m2)

/-- The hard-coded `inter_stage_mappings` dict of `execute_transition`
(lines 378-383): trigger → (target stage, target state). -/
def interStageMappings : List (String × String × String) :=
  [("proceed_to_stage_selection", ("stage_selection", "stage_selection")),
   ("choose_politics_tech", ("content_politics_tech", "content_intro_pt")),
   ("choose_psychology_society", ("content_psychology_society", "content_intro_ps")),
   ("finish_all_content", ("offboarding", "stage_completion_review"))]

/-- Modelled from the spec: the trigger dispatch of the third-party
`transitions` library (spec §9: "dynamically attaches a callable method per
trigger name onto the machine object (library-generated dispatch)"), which
is not part of this repository.  Firing a trigger looks up a transition of
the underlying machine whose trigger matches and whose source matches the
current state; a hit moves to its destination, and a missing transition or
a destination absent from the machine's registered states raises — spec
§4.3: "a transition was declared in configuration but its destination is
absent from the target stage's state list".  `none` models the raise. -/
def fireTrigger (machine_states : List String) (machine_transitions : List Transition)
    (state trigger : String) : Option String :=
  match machine_transitions.find? (fun t => t.trigger == trigger && sourceMatches t.source state) with
  | none => none
  | some t => if t.dest ∈ machine_states then some t.dest else none

/-- `execute_transition` (lines 372-454).  Triggers named in
`inter_stage_mappings` are diverted to `_execute_inter_stage_transition`
before any availability check (lines 385-387).  For ordinary triggers the
method fails on an absent or not-allowed trigger, and otherwise fires the
library trigger; a raising dispatch is caught and the destination is
assigned directly, still returning `True` (lines 429-442).  The
`hasattr`/`callable` checks of lines 416-424 always succeed here because
the initial `Machine` registers a method for every configured trigger and
such methods are never removed. -/
def execute_transition (m : Machine) (trigger_name : String) (turn_counter : Int) :
    Bool × Machine :=
  match (interStageMappings.lookup trigger_name) with
  | some (target_stage, target_state) =>
    execute_inter_stage_transition m target_stage turn_counter (some target_state)
  | none =>
    let available_transitions := get_available_transitions m turn_counter RuleContext.default
    match available_transitions.find? (fun t => t.trigger == trigger_name) with
    | none => (false, m)
    | some matching_transition =>
      if !matching_transition.allowed then (false, m)
      else
        match fireTrigger m.machine_states m.machine_transitions m.state trigger_name with
        | some new_state => (true, { m with state := new_state })
        | none => (true, { m with state := matching_transition.dest })

/-- A whole conversation: a sequence of `execute_transition` calls, each a
`(trigger, turn)` pair. -/
def runConversation (m : Machine) : List (String × Int) → Machine
  | [] => m
  | (trigger, turn) :: rest => runConversation (execute_transition m trigger turn).2 rest

/-- `get_available_content_stages` (lines 615-620): the content stages of
the configuration not yet in `completed_stages`. -/
def get_available_content_stages (m : Machine) : List String :=
  let all_content_stages := (m.stages.map Prod.fst).filter (fun n => pyStartswith n "content_")
  all_content_stages.filter (fun stage => !(stage ∈ m.completed_stages))

end StateMachine

namespace DecisionEngine

open StateMachine

/-- A value stored in the rule-evaluation context dict built by
`DecisionRuleEngine.get_context_from_agent_state` (lines 290-305). -/
inductive CtxVal where
  | str : String → CtxVal
  | int : Int → CtxVal
  | bool : Bool → CtxVal
  | strList : List String → CtxVal
  | transList : List TransEntry → CtxVal
  deriving Repr, DecidableEq

/-- The rule-evaluation context: a string-keyed dict. -/
abbrev Ctx := List (String × CtxVal)

/-- A decision rule as seen by `evaluate_decision`: the `DecisionRule`
interface of `decision_rule_engine.py` (lines 10-27) — a name, a priority
(lower = earlier), an `applies` predicate and an `evaluate` function.
`evaluate` is modelled as pure: the only in-place context write any
concrete rule performs (`context['unavailable_stage_requested']`,
line 184, by `StageSelectionRule`) is to a key that no rule's `applies` or
`evaluate` reads, so it cannot change the result of the evaluation loop. -/
structure DRule where
  name : String
  priority : Int
  applies : Ctx → Bool
  evaluate : Ctx → Option String
  reason : Ctx → String

/-- The dict returned by `evaluate_decision` (lines 259-264 and 270-275). -/
structure Decision where
  trigger : Option String
  reason : String
  rule_name : Option String
  forced : Bool
  deriving Repr, DecidableEq

/-- Python truthiness of `evaluate`'s return value at `if trigger:`
(line 256): `None` and the empty string are falsy. -/
def truthyStr (x : Option String) : Bool :=
  match x with
  | none => false
  | some s => s != ""

/-- `DecisionRuleEngine.evaluate_decision` (lines 248-275): iterate the
(priority-sorted) rule list; the first rule that applies and whose
`evaluate` returns a truthy trigger wins with `forced=True`; otherwise the
no-decision dict is returned. -/
def evaluateDecision : List DRule → Ctx → Decision
  | [], _ =>
    { trigger := none, reason := "No forced rules triggered", rule_name := none, forced := false }
  | rule :: rest, context =>
    if rule.applies context then
      let trigger := rule.evaluate context
      if truthyStr trigger then
        { trigger := trigger, reason := rule.reason context,
          rule_name := some rule.name, forced := true }
      else
        evaluateDecision rest context
    else
      evaluateDecision rest context

/-- A rule "hits" a context when it applies and its `evaluate` returns a
truthy trigger — the condition under which the loop stops at it. -/
def hits (rule : DRule) (context : Ctx) : Bool :=
  rule.applies context && truthyStr (rule.evaluate context)

/-- The fields of an agent state read by `get_context_from_agent_state`
(lines 279-304): the optional state machine, the conversation turn counter,
and the `instruction` attribute holding the last user message. -/
structure AgentState where
  state_machine : Option Machine
  conversation_turn_counter : Int
  instruction : String

/-- `DecisionRuleEngine.get_context_from_agent_state` (lines 277-307),
building the context dict key by key in source order.  Note line 303:
`available_content_stages` is populated from `sm.completed_stages`. -/
def get_context_from_agent_state (agent_state : AgentState)
    (available_transitions : List TransEntry) : Ctx :=
  match agent_state.state_machine with
  | none => [("error", CtxVal.str "No state machine available")]
  | some sm =>
    let turn_counter := agent_state.conversation_turn_counter
    let stage_start_turn := sm.stage_start_turn
    let stage_relative_turns := turn_counter - stage_start_turn
    let stage_config := (sm.stages.lookup sm.current_stage).getD emptyStageConfig
    [("current_state", CtxVal.str sm.state),
     ("current_stage", CtxVal.str sm.current_stage),
     ("turn_counter", CtxVal.int turn_counter),
     ("stage_relative_turns", CtxVal.int stage_relative_turns),
     ("stage_start_turn", CtxVal.int stage_start_turn),
     ("available_transitions", CtxVal.transList available_transitions),
     ("max_turns_in_stage", CtxVal.int (stage_config.max_turns_in_stage.getD 15)),
     ("target_turns", CtxVal.int (stage_config.target_turns.getD 12)),
     ("closure_states", CtxVal.strList (stage_config.closure_states.getD [])),
     ("golden_path", CtxVal.strList (stage_config.golden_path.getD [])),
     ("derailing_states", CtxVal.strList (stage_config.derailing_states.getD [])),
     ("last_user_message", CtxVal.str agent_state.instruction),
     ("available_content_stages", CtxVal.strList sm.completed_stages),
     ("completed_stages", CtxVal.strList sm.completed_stages)]

end DecisionEngine

section ConcreteInstances

open StateMachine DecisionEngine

/-- A configuration whose single stage uses stage-relative turn limiting
(`relative_turns=true`, `max_turns_in_stage=2`) with closure state `"c"`. -/
def cfgC1 : Config :=
  { stages := [("s1", { states := ["a", "c", "d"], relative_turns := some true,
                        max_turns_in_stage := some 2, closure_states := some ["c"] })]
    current_stage := "s1", initial_state := "a"
    transitions := [⟨"close", .single "a", "c"⟩] }

/-- The machine built from `cfgC1`. -/
def MC1 : Machine := initMachine cfgC1

/-- A configuration in which stage `content_politics_tech` exists but the
active stage's transition table offers no trigger at all. -/
def cfgC3 : Config :=
  { stages := [("onboarding", { states := ["a"] }),
               ("content_politics_tech", { states := ["content_intro_pt"] })]
    current_stage := "onboarding", initial_state := "a", transitions := [] }

/-- The machine built from `cfgC3`. -/
def MC3 : Machine := initMachine cfgC3

/-- A configuration declaring a transition `go : a → b` whose destination
`b` is absent from the active stage's state list `["a"]`, so the library
dispatch for `go` raises. -/
def cfgC7 : Config :=
  { stages := [("default", { states := ["a"] })]
    current_stage := "default", initial_state := "a"
    transitions := [⟨"go", .single "a", "b"⟩] }

/-- The machine built from `cfgC7`. -/
def MC7 : Machine := initMachine cfgC7

/-- The entry `get_available_transitions` yields for the `go` transition of
`MC7`. -/
def eC7 : TransEntry :=
  { trigger := "go", source := .single "a", dest := "b",
    description := "Trigger: go", allowed := true, block_reason := none }

/-- A machine currently inside the content stage `content_politics_tech`;
its configuration has no `offboarding` stage. -/
def cfgC8 : Config :=
  { stages := [("content_politics_tech", { states := ["x"] })]
    current_stage := "content_politics_tech", initial_state := "x" }

/-- The machine built from `cfgC8`. -/
def MC8 : Machine := initMachine cfgC8

/-- A stage-selection configuration whose `choose_politics_tech` trigger
is mapped to the content stage `content_politics_tech`. -/
def cfgC9 : Config :=
  { stages := [("stage_selection", { states := ["stage_selection"] }),
               ("content_politics_tech", { states := ["content_intro_pt"] }),
               ("content_psychology_society", { states := ["content_intro_ps"] })]
    current_stage := "stage_selection", initial_state := "stage_selection"
    transitions := [⟨"choose_politics_tech", .single "stage_selection", "content_intro_pt"⟩]
    inter_stage_selection := [("choose_politics_tech", "content_politics_tech")] }

/-- The machine of `cfgC9` after `content_politics_tech` was completed. -/
def MC9 : Machine := { initMachine cfgC9 with completed_stages := ["content_politics_tech"] }

/-- The blocked entry `get_available_transitions` yields on `MC9`. -/
def eC9 : TransEntry :=
  { trigger := "choose_politics_tech", source := .single "stage_selection",
    dest := "content_intro_pt", description := "Trigger: choose_politics_tech",
    allowed := false,
    block_reason := some "Stage content_politics_tech already completed in this session" }

/-- An agent state owning `MC9` at turn 7. -/
def agC10 : AgentState := ⟨some MC9, 7, "hi"⟩

/-- A decision rule that always applies and always yields trigger `go`. -/
def rule1 : DRule := ⟨"r1", 10, fun _ => true, fun _ => some "go", fun _ => "because"⟩

end ConcreteInstances

section ClaimTheorems

open StateMachine DecisionEngine

/-- C1: the claim that `is_transition_allowed` always allows a transition
into a closure state of the active stage at any turn `t ≥ 10` is violated:
in `MC1` the active stage has the non-empty closure-state list `["c"]`, an
`AbsoluteClosureRule` for `"c"` with `min_turn_for_closure = 10` is among
the guard rails, yet at turn `10` the transition into `"c"` is denied,
because the stage-relative `TurnLimitRule` in the same chain returns
`False` for it and `is_transition_allowed` lets any single rule veto. -/
theorem absolute_closure_invariant_fails :
    ((MC1.stages.lookup MC1.current_stage).getD emptyStageConfig).closure_states
        = some ["c"]
    ∧ GuardRail.absoluteClosureRule "c" 10 ∈ MC1.guard_rails
    ∧ (is_transition_allowed MC1 "c" 10 RuleContext.default).1 = false := by
  decide

/-- C2: `TurnLimitRule.check` in stage-relative mode with
`max_turns_in_stage = 2`, closure states `["c"]`, at turn 5 with
`stage_start_turn = 0` (so `turnsInStage = 5 > 2`): the rule denies the
transition into the closure state `"c"` and allows the transition into the
non-closure state `"d"` — exactly the opposite of the claimed behaviour. -/
theorem turn_limit_stage_relative_inverted :
    turnLimitCheck none none ["c"] false true (some 2) "s" "c" 5 ⟨0, "x", none⟩ = false
    ∧ turnLimitCheck none none ["c"] false true (some 2) "s" "d" 5 ⟨0, "x", none⟩ = true
    ∧ turnLimitCheck none none ["c"] false true (some 2) "s" "c" 2 ⟨0, "x", none⟩ = true
    ∧ turnLimitCheck none none ["c"] false true (some 2) "s" "d" 2 ⟨0, "x", none⟩ = true := by
  decide

/-- C4: `GoldenPathRule.check` with golden path `["a","b"]`, derailing
states `["x"]`, `max_derailing_time = 3`, `force_return = true`: entering
`x` from `a` at turn 5 is allowed and records `derailing_start_turn = 5`
in the shared context; at turn 8 (duration `8 − 5 = 3 ≥ 3`) the transition
from `x` to `y` (neither on the golden path nor a closure state) is denied
while the transition from `x` back to `b` is allowed. -/
theorem golden_path_derailing_scenario :
    goldenPathCheck ["a", "b"] ["x"] 3 true "a" "x" 5 ⟨0, "stg", none⟩
      = (true, ⟨0, "stg", some 5⟩)
    ∧ goldenPathCheck ["a", "b"] ["x"] 3 true "x" "y" 8 ⟨0, "stg", some 5⟩
      = (false, ⟨0, "stg", some 5⟩)
    ∧ goldenPathCheck ["a", "b"] ["x"] 3 true "x" "b" 8 ⟨0, "stg", some 5⟩
      = (true, ⟨0, "stg", some 5⟩) := by
  decide

/-- C5: `SequenceRule.check` with `allow_skip = false` and
`allow_backward = false`: when both states occur in the sequence (at first
occurrence indices `i` and `j`), the transition is denied exactly when
`j < i` (backward) or `j > i + 1` (skip); when either state is outside the
sequence, the rule allows the transition. -/
theorem sequence_rule_deny_iff :
    (∀ (sequence : List String) (current_state dest_state : String) (i j : ℕ),
      sequence.indexOf? current_state = some i →
      sequence.indexOf? dest_state = some j →
      (sequenceCheck sequence false false current_state dest_state = false ↔
        j < i ∨ j > i + 1))
    ∧ (∀ (sequence : List String) (current_state dest_state : String),
      sequence.indexOf? current_state = none ∨ sequence.indexOf? dest_state = none →
      sequenceCheck sequence false false current_state dest_state = true) := by
  constructor
  · intro sequence current_state dest_state i j hi hj
    simp only [sequenceCheck, hi, hj, Bool.not_false, Bool.and_true]
    by_cases h1 : j < i
    · simp [h1]
    · by_cases h2 : j > i + 1
      · simp [h1, h2]
      · simp [h1, h2]
  · intro sequence current_state dest_state h
    rcases h with h | h
    · simp only [sequenceCheck, h]
    · simp only [sequenceCheck, h]
      cases sequence.indexOf? current_state <;> rfl

/-- Witness for C5 at the concrete scenario of the spec: sequence
`["a","b","c"]`, current `a` (index 0), destination `c` (index 2 > 0+1):
denied. -/
theorem sequence_rule_deny_iff_witness :
    sequenceCheck ["a", "b", "c"] false false "a" "c" = false :=
  (sequence_rule_deny_iff.1 ["a", "b", "c"] "a" "c" 0 2 (by decide) (by decide)).mpr
    (by decide)

/-- `switch_stage` immediately fails, without touching the machine, when
the target stage is absent from the configuration. -/
theorem switch_stage_missing (m : Machine) (new_stage : String) (turn : Int)
    (h : m.stages.lookup new_stage = none) :
    switch_stage m new_stage turn = (false, m) := by
  unfold switch_stage
  rw [h]

/-- C3 (amended): for a trigger that is not one of the four special
inter-stage triggers, `execute_transition` returns `false` exactly when the
trigger is absent from `get_available_transitions` or present but marked
not-allowed, and in that case the machine is unchanged. -/
theorem execute_transition_intra_stage_failure_iff
    (m : Machine) (trigger_name : String) (turn : Int)
    (h : interStageMappings.lookup trigger_name = none) :
    ((execute_transition m trigger_name turn).1 = false ↔
      ((get_available_transitions m turn RuleContext.default).find?
          (fun t => t.trigger == trigger_name) = none
        ∨ ∃ e, (get_available_transitions m turn RuleContext.default).find?
            (fun t => t.trigger == trigger_name) = some e ∧ e.allowed = false))
    ∧ ((execute_transition m trigger_name turn).1 = false →
        (execute_transition m trigger_name turn).2 = m) := by
  unfold execute_transition
  rw [h]
  cases hf : (get_available_transitions m turn RuleContext.default).find?
      (fun t => t.trigger == trigger_name) with
  | none => simp [hf]
  | some e =>
    cases he : e.allowed with
    | false => simp [hf, he]
    | true =>
      cases hfire : fireTrigger m.machine_states m.machine_transitions m.state trigger_name <;>
        simp [hf, he, hfire]

/-- Counterexample to C3 as stated: on `MC3` the trigger
`choose_politics_tech` is absent from the available transitions (the list
is empty), yet `execute_transition` returns `true` and moves the current
state from `a` to `content_intro_pt`, because inter-stage triggers bypass
the availability check. -/
theorem execute_transition_absent_trigger_changes_state :
    get_available_transitions MC3 0 RuleContext.default = []
    ∧ (execute_transition MC3 "choose_politics_tech" 0).1 = true
    ∧ (execute_transition MC3 "choose_politics_tech" 0).2.state = "content_intro_pt"
    ∧ MC3.state = "a" := by
  decide

/-- Witness for the amended C3: on `MC7` the unknown trigger `nope` is
rejected with the machine unchanged. -/
theorem execute_transition_intra_stage_failure_iff_witness :
    ((execute_transition MC7 "nope" 0).1 = false ↔
      ((get_available_transitions MC7 0 RuleContext.default).find?
          (fun t => t.trigger == "nope") = none
        ∨ ∃ e, (get_available_transitions MC7 0 RuleContext.default).find?
            (fun t => t.trigger == "nope") = some e ∧ e.allowed = false))
    ∧ ((execute_transition MC7 "nope" 0).1 = false →
        (execute_transition MC7 "nope" 0).2 = MC7) :=
  execute_transition_intra_stage_failure_iff MC7 "nope" 0 (by decide)

/-- C7: when an ordinary trigger is present and allowed among the available
transitions but the library dispatch raises (`fireTrigger` returns `none`),
`execute_transition` assigns the transition's destination directly to the
current state and still returns `true`. -/
theorem execute_transition_dispatch_fallback
    (m : Machine) (trigger_name : String) (turn : Int) (e : TransEntry)
    (hmap : interStageMappings.lookup trigger_name = none)
    (hfind : (get_available_transitions m turn RuleContext.default).find?
        (fun t => t.trigger == trigger_name) = some e)
    (hallow : e.allowed = true)
    (hfail : fireTrigger m.machine_states m.machine_transitions m.state trigger_name = none) :
    execute_transition m trigger_name turn = (true, { m with state := e.dest }) := by
  unfold execute_transition
  rw [hmap]
  simp only [hfind, hallow, hfail, Bool.not_true, Bool.false_eq_true, if_false]

/-- Witness for C7: on `MC7` the `go` transition is available and allowed,
its destination `b` is absent from the machine's registered states `["a"]`
(so the dispatch raises), and `execute_transition` ends in state `b`
returning `true`. -/
theorem execute_transition_dispatch_fallback_witness :
    execute_transition MC7 "go" 0 = (true, { MC7 with state := "b" }) :=
  execute_transition_dispatch_fallback MC7 "go" 0 eC7 (by decide) (by decide) (by decide)
    (by decide)

/-- `mark_stage_completed` only ever touches `completed_stages`. -/
theorem mark_stage_completed_only_completed (m : Machine) (s : String) :
    (mark_stage_completed m s).stages = m.stages
    ∧ (mark_stage_completed m s).state = m.state
    ∧ (mark_stage_completed m s).current_stage = m.current_stage
    ∧ (mark_stage_completed m s).stage_start_turn = m.stage_start_turn := by
  unfold mark_stage_completed
  split <;> exact ⟨rfl, rfl, rfl, rfl⟩

/-- C8 (amended): an inter-stage transition whose target stage is absent
from the configuration returns `false` and makes no change beyond the
completion marking that already ran before the failing stage switch: the
result is exactly `(false, m')` where `m'` is the input machine with the
old stage marked completed when the old stage is a content stage different
from the target (so current state, current stage and `stage_start_turn`
are unchanged, but `completed_stages` may have grown). -/
theorem inter_stage_missing_target_spec
    (m : Machine) (target_stage : String) (turn : Int) (target_state? : Option String)
    (h : m.stages.lookup target_stage = none) :
    execute_inter_stage_transition m target_stage turn target_state?
      = (false,
         if pyStartswith m.current_stage "content_" && target_stage != m.current_stage
         then mark_stage_completed m m.current_stage
         else m)
    ∧ (mark_stage_completed m m.current_stage).state = m.state
    ∧ (mark_stage_completed m m.current_stage).current_stage = m.current_stage
    ∧ (mark_stage_completed m m.current_stage).stage_start_turn = m.stage_start_turn
    ∧ (mark_stage_completed m m.current_stage).completed_stages
        = (if !(m.current_stage ∈ m.completed_stages)
              && pyStartswith m.current_stage "content_"
           then m.completed_stages ++ [m.current_stage]
           else m.completed_stages) := by
  refine ⟨?_, (mark_stage_completed_only_completed m m.current_stage).2.1,
    (mark_stage_completed_only_completed m m.current_stage).2.2.1,
    (mark_stage_completed_only_completed m m.current_stage).2.2.2, ?_⟩
  · simp only [execute_inter_stage_transition]
    cases hcond : pyStartswith m.current_stage "content_" && target_stage != m.current_stage with
    | false =>
      simp only [hcond, Bool.false_eq_true, if_false, switch_stage_missing m target_stage turn h]
    | true =>
      have hs : (mark_stage_completed m m.current_stage).stages.lookup target_stage = none := by
        rw [(mark_stage_completed_only_completed m m.current_stage).1]
        exact h
      simp only [hcond, if_true,
        switch_stage_missing (mark_stage_completed m m.current_stage) target_stage turn hs]
  · unfold mark_stage_completed
    split <;> simp_all

/-- Counterexample to C8 as stated: on `MC8` (active stage
`content_politics_tech`, no `offboarding` stage configured) the
`finish_all_content` trigger fails as claimed, but `completed_stages` has
grown from `[]` to `["content_politics_tech"]` — the observable state is
not the same as before the attempt. -/
theorem inter_stage_missing_target_mutates :
    MC8.stages.lookup "offboarding" = none
    ∧ (execute_transition MC8 "finish_all_content" 3).1 = false
    ∧ (execute_transition MC8 "finish_all_content" 3).2.completed_stages
        = ["content_politics_tech"]
    ∧ MC8.completed_stages = [] := by
  decide

/-- Witness for the amended C8 at the concrete machine `MC8`. -/
theorem inter_stage_missing_target_spec_witness :
    execute_inter_stage_transition MC8 "offboarding" 3 (some "stage_completion_review")
      = (false,
         if pyStartswith MC8.current_stage "content_" && "offboarding" != MC8.current_stage
         then mark_stage_completed MC8 MC8.current_stage
         else MC8)
    ∧ (mark_stage_completed MC8 MC8.current_stage).state = MC8.state
    ∧ (mark_stage_completed MC8 MC8.current_stage).current_stage = MC8.current_stage
    ∧ (mark_stage_completed MC8 MC8.current_stage).stage_start_turn = MC8.stage_start_turn
    ∧ (mark_stage_completed MC8 MC8.current_stage).completed_stages
        = (if !(MC8.current_stage ∈ MC8.completed_stages)
              && pyStartswith MC8.current_stage "content_"
           then MC8.completed_stages ++ [MC8.current_stage]
           else MC8.completed_stages) :=
  inter_stage_missing_target_spec MC8 "offboarding" 3 (some "stage_completion_review")
    (by decide)

/-- A rule that does not hit is skipped by the evaluation loop. -/
theorem evaluateDecision_cons_not_hit (r : DRule) (rest : List DRule) (context : Ctx)
    (h : hits r context = false) :
    evaluateDecision (r :: rest) context = evaluateDecision rest context := by
  unfold hits at h
  cases ha : r.applies context with
  | false => simp [evaluateDecision, ha]
  | true =>
    cases ht : truthyStr (r.evaluate context) with
    | false => simp [evaluateDecision, ha, ht]
    | true => rw [ha, ht] at h; simp at h

/-- A rule that hits stops the evaluation loop with its own decision. -/
theorem evaluateDecision_cons_hit (r : DRule) (rest : List DRule) (context : Ctx)
    (h : hits r context = true) :
    evaluateDecision (r :: rest) context
      = { trigger := r.evaluate context, reason := r.reason context,
          rule_name := some r.name, forced := true } := by
  unfold hits at h
  obtain ⟨ha, ht⟩ := Bool.and_eq_true_iff.mp h
  simp [evaluateDecision, ha, ht]

/-- C6: `evaluate_decision` returns the decision of the first rule (in list
order, i.e. ascending-priority order after the engine's sort) that applies
and yields a truthy trigger, with `forced = true`, independently of every
rule placed after it; when no rule hits it returns the
no-decision result with `forced = false`; and on a priority-sorted rule
list the returned trigger always comes from a rule whose priority number is
at most that of any rule that applies and yields a trigger. -/
theorem evaluate_decision_first_match_spec :
    (∀ (pre : List DRule) (r : DRule) (post : List DRule) (context : Ctx),
      (∀ p ∈ pre, hits p context = false) → hits r context = true →
      evaluateDecision (pre ++ r :: post) context
        = { trigger := r.evaluate context, reason := r.reason context,
            rule_name := some r.name, forced := true })
    ∧ (∀ (rules : List DRule) (context : Ctx),
      (∀ p ∈ rules, hits p context = false) →
      evaluateDecision rules context
        = { trigger := none, reason := "No forced rules triggered",
            rule_name := none, forced := false })
    ∧ (∀ (rules : List DRule) (context : Ctx) (r : DRule),
      rules.Pairwise (fun a b => a.priority ≤ b.priority) →
      r ∈ rules → hits r context = true →
      (evaluateDecision rules context).forced = true
      ∧ ∃ r', r' ∈ rules ∧ hits r' context = true ∧ r'.priority ≤ r.priority
          ∧ (evaluateDecision rules context).trigger = r'.evaluate context
          ∧ (evaluateDecision rules context).rule_name = some r'.name) := by
  refine ⟨?_, ?_, ?_⟩
  · intro pre
    induction pre with
    | nil =>
      intro r post context _ hr
      exact evaluateDecision_cons_hit r post context hr
    | cons p pre ih =>
      intro r post context hall hr
      rw [List.cons_append,
        evaluateDecision_cons_not_hit p _ context (hall p (List.mem_cons_self p pre))]
      exact ih r post context (fun q hq => hall q (List.mem_cons_of_mem p hq)) hr
  · intro rules
    induction rules with
    | nil => intro context _; rfl
    | cons p rest ih =>
      intro context hall
      rw [evaluateDecision_cons_not_hit p rest context (hall p (List.mem_cons_self p rest))]
      exact ih context (fun q hq => hall q (List.mem_cons_of_mem p hq))
  · intro rules
    induction rules with
    | nil => intro context r _ hmem _; exact absurd hmem (List.not_mem_nil r)
    | cons a rest ih =>
      intro context r hsorted hmem hr
      obtain ⟨hall, hsorted'⟩ := List.pairwise_cons.mp hsorted
      cases hhit : hits a context with
      | true =>
        rw [evaluateDecision_cons_hit a rest context hhit]
        refine ⟨rfl, a, List.mem_cons_self a rest, hhit, ?_, rfl, rfl⟩
        rcases List.mem_cons.mp hmem with rfl | hm
        · exact le_refl _
        · exact hall r hm
      | false =>
        rw [evaluateDecision_cons_not_hit a rest context hhit]
        rcases List.mem_cons.mp hmem with rfl | hm
        · rw [hr] at hhit; exact absurd hhit (by simp)
        · obtain ⟨hforced, r', hr'mem, hr'hit, hr'le, hr'trig, hr'name⟩ :=
            ih context r hsorted' hm hr
          exact ⟨hforced, r', List.mem_cons_of_mem a hr'mem, hr'hit, hr'le, hr'trig, hr'name⟩

/-- Witness for C6: a single always-hitting rule wins immediately. -/
theorem evaluate_decision_first_match_spec_witness :
    evaluateDecision [rule1] []
      = { trigger := some "go", reason := "because", rule_name := some "r1", forced := true } :=
  evaluate_decision_first_match_spec.1 [] rule1 [] []
    (fun p hp => absurd hp (List.not_mem_nil p)) rfl

/-- `switch_stage` never changes `completed_stages`. -/
theorem switch_stage_completed (m : Machine) (new_stage : String) (turn : Int) :
    (switch_stage m new_stage turn).2.completed_stages = m.completed_stages := by
  unfold switch_stage
  split <;> rfl

/-- `mark_stage_completed` only appends: the old list is a prefix. -/
theorem mark_stage_completed_monotone (m : Machine) (s : String) :
    m.completed_stages <+: (mark_stage_completed m s).completed_stages := by
  unfold mark_stage_completed
  split
  · exact List.prefix_append _ _
  · exact List.prefix_refl _

/-- `_execute_inter_stage_transition` can only extend `completed_stages`. -/
theorem inter_stage_completed_monotone (m : Machine) (target_stage : String)
    (turn : Int) (target_state? : Option String) :
    m.completed_stages
      <+: (execute_inter_stage_transition m target_stage turn target_state?).2.completed_stages := by
  have hpre : m.completed_stages
      <+: (if pyStartswith m.current_stage "content_" && target_stage != m.current_stage
           then mark_stage_completed m m.current_stage else m).completed_stages := by
    split
    · exact mark_stage_completed_monotone m m.current_stage
    · exact List.prefix_refl _
  simp only [execute_inter_stage_transition]
  split
  · rename_i m2 heq
    have hc := switch_stage_completed
      (if pyStartswith m.current_stage "content_" && target_stage != m.current_stage
       then mark_stage_completed m m.current_stage else m) target_stage turn
    rw [heq] at hc
    dsimp only at hc
    have key : m.completed_stages <+: m2.completed_stages := by rw [hc]; exact hpre
    exact key
  · rename_i m2 heq
    have hc := switch_stage_completed
      (if pyStartswith m.current_stage "content_" && target_stage != m.current_stage
       then mark_stage_completed m m.current_stage else m) target_stage turn
    rw [heq] at hc
    dsimp only at hc
    have key : m.completed_stages <+: m2.completed_stages := by rw [hc]; exact hpre
    split <;> split <;> first
      | exact key
      | (split <;> exact key)

/-- A single `execute_transition` call can only extend `completed_stages`. -/
theorem execute_transition_completed_monotone (m : Machine) (trigger_name : String)
    (turn : Int) :
    m.completed_stages <+: (execute_transition m trigger_name turn).2.completed_stages := by
  simp only [execute_transition]
  split
  · exact inter_stage_completed_monotone _ _ _ _
  · split
    · exact List.prefix_refl _
    · split
      · exact List.prefix_refl _
      · split <;> exact List.prefix_refl _

/-- The completed-stage block inside the `get_available_transitions` loop:
every produced entry whose trigger maps (via
`inter_stage_transitions['stage_selection']`) to a completed content stage
is marked not-allowed with the completed-stage reason, provided the active
stage is `stage_selection`. -/
theorem availableLoop_completed_block (m : Machine) (turn : Int) (ts : List Transition) :
    ∀ (context : RuleContext) (e : TransEntry) (target : String),
      m.current_stage = "stage_selection" →
      e ∈ availableLoop m turn ts context →
      m.inter_stage_selection.lookup e.trigger = some target →
      pyStartswith target "content_" = true →
      target ∈ m.completed_stages →
      e.allowed = false
      ∧ e.block_reason = some ("Stage " ++ target ++ " already completed in this session") := by
  induction ts with
  | nil =>
    intro context e target _ he
    simp [availableLoop] at he
  | cons t rest ih =>
    intro context e target hstage he hlook hsw hmem
    simp only [availableLoop] at he
    by_cases hsrc : sourceMatches t.source m.state = true
    · rw [if_pos hsrc] at he
      rcases List.mem_cons.mp he with rfl | hrest
      · simp only at hlook
        constructor <;> simp [hstage, hlook, hsw, hmem]
      · exact ih _ e target hstage hrest hlook hsw hmem
    · rw [if_neg hsrc] at he
      exact ih _ e target hstage he hlook hsw hmem

/-- C9: over any whole conversation (any sequence of `execute_transition`
calls) the completed-stages list only ever grows (the old list stays a
prefix, so a stage once added is never removed); and whenever the machine
sits in `stage_selection`, every available-transition entry whose trigger
is mapped to an already-completed content stage is returned with
`allowed = false` and the completed-stage block reason. -/
theorem completed_stages_monotone_and_block :
    (∀ (m : Machine) (events : List (String × Int)),
      m.completed_stages <+: (runConversation m events).completed_stages)
    ∧ (∀ (m : Machine) (turn : Int) (context : RuleContext) (e : TransEntry) (target : String),
      m.current_stage = "stage_selection" →
      e ∈ get_available_transitions m turn context →
      m.inter_stage_selection.lookup e.trigger = some target →
      pyStartswith target "content_" = true →
      target ∈ m.completed_stages →
      e.allowed = false
      ∧ e.block_reason = some ("Stage " ++ target ++ " already completed in this session")) := by
  constructor
  · intro m events
    induction events generalizing m with
    | nil => exact List.prefix_refl _
    | cons ev rest ih =>
      obtain ⟨trigger, turn⟩ := ev
      exact (execute_transition_completed_monotone m trigger turn).trans
        (ih (execute_transition m trigger turn).2)
  · intro m turn context e target hstage he hlook hsw hmem
    exact availableLoop_completed_block m turn m.transitions_config context e target
      hstage he hlook hsw hmem

/-- Witness for C9 on the concrete machine `MC9`: a conversation step keeps
`content_politics_tech` completed, and the `choose_politics_tech` entry is
blocked with the completed-stage reason. -/
theorem completed_stages_monotone_and_block_witness :
    MC9.completed_stages
      <+: (runConversation MC9 [("choose_politics_tech", 4)]).completed_stages
    ∧ (eC9.allowed = false
      ∧ eC9.block_reason = some ("Stage " ++ "content_politics_tech"
          ++ " already completed in this session")) :=
  ⟨completed_stages_monotone_and_block.1 MC9 [("choose_politics_tech", 4)],
   completed_stages_monotone_and_block.2 MC9 4 RuleContext.default eC9
     "content_politics_tech" rfl (by decide) (by decide) (by decide) (by decide)⟩

/-- C10: the rule-evaluation context built from an agent state that owns a
state machine maps `available_content_stages` to the machine's
`completed_stages` list — the same value as the `completed_stages` key,
not the not-yet-completed list computed by `get_available_content_stages`
— and contains no `all_stages_completed` key. -/
theorem context_available_content_stages_is_completed
    (agent_state : AgentState) (sm : Machine) (available : List TransEntry)
    (h : agent_state.state_machine = some sm) :
    (get_context_from_agent_state agent_state available).lookup "available_content_stages"
        = some (CtxVal.strList sm.completed_stages)
    ∧ (get_context_from_agent_state agent_state available).lookup "available_content_stages"
        = (get_context_from_agent_state agent_state available).lookup "completed_stages"
    ∧ (get_context_from_agent_state agent_state available).lookup "all_stages_completed"
        = none := by
  unfold get_context_from_agent_state
  rw [h]
  exact ⟨rfl, rfl, rfl⟩

/-- Witness for C10 on the concrete agent state `agC10` (owning `MC9`):
the context reports the completed stage `content_politics_tech` under
`available_content_stages`, although the not-yet-completed content stages
are `["content_psychology_society"]`. -/
theorem context_available_content_stages_is_completed_witness :
    (get_context_from_agent_state agC10 []).lookup "available_content_stages"
        = some (CtxVal.strList MC9.completed_stages)
    ∧ (get_context_from_agent_state agC10 []).lookup "available_content_stages"
        = (get_context_from_agent_state agC10 []).lookup "completed_stages"
    ∧ (get_context_from_agent_state agC10 []).lookup "all_stages_completed" = none
    ∧ MC9.completed_stages = ["content_politics_tech"]
    ∧ get_available_content_stages MC9 = ["content_psychology_society"] :=
  ⟨(context_available_content_stages_is_completed agC10 MC9 [] rfl).1,
   (context_available_content_stages_is_completed agC10 MC9 [] rfl).2.1,
   (context_available_content_stages_is_completed agC10 MC9 [] rfl).2.2,
   by decide, by decide⟩

end ClaimTheorems
